import Mathlib

/-!
Verification development for the erf static dependency-graph engine.

The definitions below are a shallow embedding, translated from the
JavaScript sources:
* `src/graph/RDFModel.js` — the triple store and its query API,
* `src/analyzers/GraphBuilder.js` — graph assembly and entry-point marking,
* `src/analyzers/DeadCodeDetector.js` — reachability / dead-code analysis,
* `src/analyzers/DependencyParser.js` — per-file syntax-fact extraction.

RDF terms are modelled by their lexical value (rdf-ext named nodes and
literals compare by term kind and value string; datatypes play no role in
this code, every literal the code matches on is constructed the same way
on both sides).  The rdf-ext dataset is a set of quads that preserves
insertion order and ignores re-insertion of an already-present quad
(`DatasetCore.add`), which we model as an append-if-absent list.
-/

inductive RdfTerm where
  | nn (v : String)
  | lit (v : String)
deriving DecidableEq, Repr

def RdfTerm.value : RdfTerm → String
  | .nn v => v
  | .lit v => v

structure RdfQuad where
  s : RdfTerm
  p : RdfTerm
  o : RdfTerm
deriving DecidableEq, Repr

abbrev Dataset : Type := List RdfQuad

/-- Length of the underlying quad list (used only to size traversal fuel). -/
def Dataset.size (d : Dataset) : Nat := List.length d

/-- DatasetCore.add: existing quads (term-equal) are ignored, new quads are
appended, so insertion order is preserved. -/
def Dataset.add (d : Dataset) (q : RdfQuad) : Dataset :=
  if q ∈ d then d else d ++ [q]

def Dataset.filterQ (d : Dataset) (f : RdfQuad → Bool) : List RdfQuad :=
  List.filter f d

/-- JavaScript `String.prototype.startsWith`, written over the character
list so the kernel can evaluate it (Lean's byte-based
`String.startsWith` does not reduce definitionally). -/
def strStartsWith (s pre : String) : Bool := pre.toList.isPrefixOf s.toList

/-! Namespace constants, from the `RDFModel` constructor. -/

def erfNS (s : String) : RdfTerm := RdfTerm.nn ("http://purl.org/stuff/erf/" ++ s)

def codeNS (s : String) : RdfTerm := RdfTerm.nn ("http://purl.org/stuff/code/" ++ s)

def rdfType : RdfTerm := RdfTerm.nn "http://www.w3.org/1999/02/22-rdf-syntax-ns#type"

def rdfsLabel : RdfTerm := RdfTerm.nn "http://www.w3.org/2000/01/rdf-schema#label"

def litTrue : RdfTerm := RdfTerm.lit "true"

def litOfBool (b : Bool) : RdfTerm := RdfTerm.lit (if b then "true" else "false")

/-! `RDFModel` mutators.  `_createNode(id)` is `rdf.namedNode(id)` — the id
string is stored verbatim; `_getOrCreateNode` returns the same named node
(the node cache only caches the identical term), so both are `RdfTerm.nn`. -/

def addTriple (s p o : RdfTerm) (d : Dataset) : Dataset :=
  Dataset.add d ⟨s, p, o⟩

/-- File metadata accepted by `RDFModel.addFile`; `none` models an absent
(JS `undefined`) key.  `mtime` carries the precomputed ISO string. -/
structure FileMeta where
  size : Option Nat := none
  mtime : Option String := none
  loc : Option Nat := none
  parseError : Option Bool := none
  parseErrorMessage : Option String := none
  isMissing : Option Bool := none
deriving DecidableEq, Repr

/-- RDFModel.addFile: a type triple, then one metadata triple per key the
source's conditions accept (`if (metadata.size)` is a JS truthiness test,
`!== undefined` is presence). -/
def addFile (filePath : String) (meta : FileMeta) (d : Dataset) : Dataset :=
  let fileNode := RdfTerm.nn filePath
  let d := addTriple fileNode rdfType (erfNS "File") d
  let d := match meta.size with
    | some n => if n ≠ 0 then addTriple fileNode (codeNS "size") (RdfTerm.lit (toString n)) d else d
    | none => d
  let d := match meta.mtime with
    | some t => addTriple fileNode (codeNS "lastModified") (RdfTerm.lit t) d
    | none => d
  let d := match meta.loc with
    | some n => if n ≠ 0 then addTriple fileNode (codeNS "loc") (RdfTerm.lit (toString n)) d else d
    | none => d
  let d := match meta.parseError with
    | some b => addTriple fileNode (erfNS "parseError") (litOfBool b) d
    | none => d
  let d := match meta.parseErrorMessage with
    | some m => if m ≠ "" then addTriple fileNode (erfNS "parseErrorMessage") (RdfTerm.lit m) d else d
    | none => d
  match meta.isMissing with
    | some b => addTriple fileNode (erfNS "isMissing") (litOfBool b) d
    | none => d

/-- RDFModel.addModule. -/
def addModule (modulePath : String) (isExternal : Bool) (d : Dataset) : Dataset :=
  let moduleNode := RdfTerm.nn modulePath
  let d := addTriple moduleNode rdfType (erfNS "Module") d
  if isExternal then addTriple moduleNode (erfNS "isExternal") litTrue d else d

/-- Function metadata accepted by `RDFModel.addFunction`; only `name`,
`loc` and `complexity` are ever read by the source. -/
structure FunctionMeta where
  name : Option String := none
  loc : Option Nat := none
  complexity : Option Nat := none
deriving DecidableEq, Repr

/-- RDFModel.addFunction. -/
def addFunction (functionId : String) (meta : FunctionMeta) (d : Dataset) : Dataset :=
  let functionNode := RdfTerm.nn functionId
  let d := addTriple functionNode rdfType (erfNS "Function") d
  let d := match meta.name with
    | some n => if n ≠ "" then addTriple functionNode rdfsLabel (RdfTerm.lit n) d else d
    | none => d
  let d := match meta.loc with
    | some n => if n ≠ 0 then addTriple functionNode (codeNS "loc") (RdfTerm.lit (toString n)) d else d
    | none => d
  match meta.complexity with
    | some n => if n ≠ 0 then addTriple functionNode (codeNS "complexity") (RdfTerm.lit (toString n)) d else d
    | none => d

/-- Import metadata accepted by `RDFModel.addImport` (`line`, `type`). -/
structure ImportMeta where
  line : Option Nat := none
  itype : Option String := none
deriving DecidableEq, Repr

/-- RDFModel.addImport: the `erf:imports` triple, plus a reified statement
when `metadata.line || metadata.type` is truthy. -/
def addImport (fromId toId : String) (meta : ImportMeta) (d : Dataset) : Dataset :=
  let fromNode := RdfTerm.nn fromId
  let toNode := RdfTerm.nn toId
  let d := addTriple fromNode (erfNS "imports") toNode d
  let lineTruthy := match meta.line with | some n => n ≠ 0 | none => false
  let typeTruthy := match meta.itype with | some t => t ≠ "" | none => false
  if lineTruthy || typeTruthy then
    let importNode := RdfTerm.nn (fromId ++ "-imports-" ++ toId)
    let d := addTriple importNode rdfType (erfNS "Import") d
    let d := addTriple importNode (erfNS "from") fromNode d
    let d := addTriple importNode (erfNS "to") toNode d
    let d := match meta.line with
      | some n => if n ≠ 0 then addTriple importNode (codeNS "line") (RdfTerm.lit (toString n)) d else d
      | none => d
    match meta.itype with
      | some t => if t ≠ "" then addTriple importNode (erfNS "importType") (RdfTerm.lit t) d else d
      | none => d
  else d

/-- Export metadata accepted by `RDFModel.addExport`. -/
structure ExportMeta where
  etype : Option String := none
  line : Option Nat := none
deriving DecidableEq, Repr

/-- RDFModel.addExport. -/
def addExport (fromId exportName : String) (meta : ExportMeta) (d : Dataset) : Dataset :=
  let fromNode := RdfTerm.nn fromId
  let exportNode := RdfTerm.nn (fromId ++ "#export:" ++ exportName)
  let d := addTriple fromNode (erfNS "exports") exportNode d
  let d := addTriple exportNode rdfsLabel (RdfTerm.lit exportName) d
  let d := match meta.etype with
    | some t => if t ≠ "" then addTriple exportNode (erfNS "exportType") (RdfTerm.lit t) d else d
    | none => d
  match meta.line with
    | some n => if n ≠ 0 then addTriple exportNode (codeNS "line") (RdfTerm.lit (toString n)) d else d
    | none => d

/-- RDFModel.addCall. -/
def addCall (callerId calleeId : String) (line : Option Nat) (d : Dataset) : Dataset :=
  let callerNode := RdfTerm.nn callerId
  let calleeNode := RdfTerm.nn calleeId
  let d := addTriple callerNode (erfNS "calls") calleeNode d
  match line with
  | some n =>
    if n ≠ 0 then
      let callNode := RdfTerm.nn (callerId ++ "-calls-" ++ calleeId)
      let d := addTriple callNode rdfType (erfNS "Call") d
      let d := addTriple callNode (erfNS "from") callerNode d
      let d := addTriple callNode (erfNS "to") calleeNode d
      addTriple callNode (codeNS "line") (RdfTerm.lit (toString n)) d
    else d
  | none => d

/-- RDFModel.markAsEntryPoint. -/
def markAsEntryPoint (nodeId : String) (d : Dataset) : Dataset :=
  addTriple (RdfTerm.nn nodeId) (erfNS "isEntryPoint") litTrue d

/-! `RDFModel` queries (read-only). -/

/-- First-character upper-casing used by `queryNodesByType`
(`type.charAt(0).toUpperCase() + type.slice(1)`). -/
def capFirst (s : String) : String :=
  match s.toList with
  | [] => ""
  | c :: cs => String.mk (c.toUpper :: cs)

/-- RDFModel.queryNodesByType: subjects of `rdf:type` quads whose object is
the capitalized erf class, in dataset (insertion) order; each result's `id`
is the subject's value. -/
def queryNodesByType (d : Dataset) (tyName : String) : List String :=
  (Dataset.filterQ d (fun q => q.p == rdfType && q.o == erfNS (capFirst tyName))).map
    (fun q => q.s.value)

/-- RDFModel.queryImports: objects of `erf:imports` quads with the given
subject, in dataset order. -/
def queryImports (d : Dataset) (nodeId : String) : List String :=
  (Dataset.filterQ d (fun q => q.s == RdfTerm.nn nodeId && q.p == erfNS "imports")).map
    (fun q => q.o.value)

/-- Result entry of `RDFModel.queryExports`: the export node's id and its
`rdfs:label` (null when no label quad exists). -/
structure ExportInfo where
  nodeId : String
  name : Option String
deriving DecidableEq, Repr

/-- RDFModel.queryExports. -/
def queryExports (d : Dataset) (nodeId : String) : List ExportInfo :=
  (Dataset.filterQ d (fun q => q.s == RdfTerm.nn nodeId && q.p == erfNS "exports")).map
    (fun q =>
      let labels := Dataset.filterQ d (fun l => l.s == q.o && l.p == rdfsLabel)
      { nodeId := q.o.value, name := labels.head?.map (fun l => l.o.value) })

/-- RDFModel.queryDependents: subjects of `erf:imports` quads whose object
is the given node. -/
def queryDependents (d : Dataset) (nodeId : String) : List String :=
  (Dataset.filterQ d (fun q => q.p == erfNS "imports" && q.o == RdfTerm.nn nodeId)).map
    (fun q => q.s.value)

/-- RDFModel.queryEntryPoints. -/
def queryEntryPoints (d : Dataset) : List String :=
  (Dataset.filterQ d (fun q => q.p == erfNS "isEntryPoint" && q.o == litTrue)).map
    (fun q => q.s.value)

/-- RDFModel.queryExternalModules. -/
def queryExternalModules (d : Dataset) : List String :=
  (Dataset.filterQ d (fun q => q.p == erfNS "isExternal" && q.o == litTrue)).map
    (fun q => q.s.value)

/-- Property-name extraction of `RDFModel.getNodeMetadata`:
`predicate.split('#')[1] || predicate.split('/').pop()`. -/
def metaPropName (p : String) : String :=
  let hashParts := p.splitOn "#"
  match hashParts.get? 1 with
  | some s => if s ≠ "" then s else ((p.splitOn "/").getLast?.getD "")
  | none => (p.splitOn "/").getLast?.getD ""

/-- Assignment to a JS object key: overwrite in place if present, else
append (string keys keep first-insertion order). -/
def setKey (m : List (String × String)) (k v : String) : List (String × String) :=
  if m.any (fun kv => kv.1 == k) then
    m.map (fun kv => if kv.1 == k then (k, v) else kv)
  else m ++ [(k, v)]

/-- RDFModel.getNodeMetadata: starts from `{id}` then folds the node's
subject quads into the object. -/
def getNodeMetadata (d : Dataset) (nodeId : String) : List (String × String) :=
  (Dataset.filterQ d (fun q => q.s == RdfTerm.nn nodeId)).foldl
    (fun m q => setKey m (metaPropName q.p.value) q.o.value)
    [("id", nodeId)]

/-!
DeadCodeDetector (`src/analyzers/DeadCodeDetector.js`).

`_traverseFromNode` is a recursion guarded by the `visited` set; every
nested call either returns at once (already visited) or freshly adds its
node to `visited`, and every freshly visited node below an entry point is
the object of a distinct `erf:imports` quad, so the nesting depth never
exceeds `d.size + 2`.  We pass that bound as structural fuel; with it the
fuel branch is never taken, and the function equals the source's
recursion. -/

/-- DeadCodeDetector._traverseFromNode, threading the (visited, reachable)
pair; `visited.add` and `reachable.add` append (Set insertion order). -/
def traverseFromNode (d : Dataset) : Nat → (List String × List String) → String →
    (List String × List String)
  | 0, st, _ => st
  | fuel + 1, st, nodeId =>
    if nodeId ∈ st.1 then st
    else
      let st1 := (st.1 ++ [nodeId], st.2 ++ [nodeId])
      (queryImports d nodeId).foldl
        (fun acc imported =>
          if (queryExternalModules d).contains imported then acc
          else traverseFromNode d fuel acc imported)
        st1

/-- DeadCodeDetector._isExportUsed: some other file's imports contain the
exporting file's id. -/
def isExportUsed (d : Dataset) (allFiles : List String) (filePath : String) : Bool :=
  allFiles.any (fun f => f ≠ filePath && (queryImports d f).contains filePath)

/-- Entry of `deadExports` produced by `_findUnusedExports`. -/
structure DeadExport where
  file : String
  exportName : Option String
  reason : String
deriving DecidableEq, Repr

/-- DeadCodeDetector._findUnusedExports. -/
def findUnusedExports (d : Dataset) : List DeadExport :=
  let allFiles := queryNodesByType d "file"
  allFiles.foldl
    (fun acc f =>
      acc ++ ((queryExports d f).filter (fun _ => ¬ isExportUsed d allFiles f)).map
        (fun e => { file := f, exportName := e.name, reason := "Exported but never imported" }))
    []

/-- Entry of `reachableFiles` in the detect result. -/
structure ReachEntry where
  path : String
  metadata : List (String × String)
deriving DecidableEq, Repr

/-- Entry of `deadFiles` in the detect result. -/
structure DeadEntry where
  path : String
  metadata : List (String × String)
  reason : String
deriving DecidableEq, Repr

/-- The `stats` object of the detect result; `unusedExports` is absent
(undefined) on the empty-entry-point short circuit. -/
structure DetectStats where
  totalFiles : Nat
  reachableFiles : Nat
  deadFiles : Nat
  unusedExports : Option Nat
  reachabilityPercentage : Nat
deriving DecidableEq, Repr

structure DetectResult where
  deadFiles : List DeadEntry
  deadExports : List DeadExport
  reachableFiles : List ReachEntry
  stats : DetectStats
deriving DecidableEq, Repr

/-- `Math.round((r / t) * 100)` for 0 ≤ r ≤ t: JavaScript rounds half
toward +∞, i.e. `floor(100·r/t + 1/2)`, which over the naturals is
`(200·r + t) / (2·t)`.  (The double-precision evaluation of
`(r/t)*100` agrees with the exact rational at every ratio this code can
produce; the rounding is modelled exactly.) -/
def jsRound100 (r t : Nat) : Nat := (200 * r + t) / (2 * t)

/-- DeadCodeDetector.detect, on a fresh detector (both working sets
empty, as the constructor initializes them).  The source's single loop
that pushes each file into `reachableFiles` or `deadFiles` is written as
the two order-preserving filters. -/
def detect (d : Dataset) : DetectResult :=
  let entryPoints := queryEntryPoints d
  if entryPoints = [] then
    { deadFiles := [], deadExports := [], reachableFiles := [],
      stats := { totalFiles := 0, reachableFiles := 0, deadFiles := 0,
                 unusedExports := none, reachabilityPercentage := 0 } }
  else
    let st := entryPoints.foldl (fun st e => traverseFromNode d (Dataset.size d + 2) st e)
      ([], [])
    let reachable := st.2
    let allFiles := queryNodesByType d "file"
    let reachableFiles := (allFiles.filter (fun f => reachable.contains f)).map
      (fun f => ({ path := f, metadata := getNodeMetadata d f } : ReachEntry))
    let deadFiles := (allFiles.filter (fun f => !(reachable.contains f))).map
      (fun f => ({ path := f, metadata := getNodeMetadata d f,
                   reason := "Not reachable from any entry point" } : DeadEntry))
    let deadExports := findUnusedExports d
    { deadFiles := deadFiles, deadExports := deadExports, reachableFiles := reachableFiles,
      stats := { totalFiles := allFiles.length,
                 reachableFiles := reachableFiles.length,
                 deadFiles := deadFiles.length,
                 unusedExports := some deadExports.length,
                 reachabilityPercentage :=
                   if allFiles.length > 0 then jsRound100 reachableFiles.length allFiles.length
                   else 0 } }

/-!
DependencyParser (`src/analyzers/DependencyParser.js`).

The Babel syntax tree is modelled by an inductive covering exactly the
node kinds the `walkAST` visitors dispatch on, plus `stringLit`/`ident`
child expressions and a generic `other` container for any node without a
visitor (the walk recurses into every child of every node). -/

/-- Import specifier kinds of an `ImportDeclaration`. -/
inductive ImpSpec where
  | dflt
  | nspace
  | named (s : String)
deriving DecidableEq, Repr

/-- A class member (`ClassMethod` / `MethodDefinition`); `name` is
`member.key.name || member.key.value` (none when both are absent). -/
structure MethodDef where
  name : Option String
  kind : Option String := none
  static : Bool := false
  async : Bool := false
  params : Nat := 0
  line : Nat := 0
deriving DecidableEq, Repr

/-- Assignment left-hand sides the CommonJS-export visitor recognizes. -/
inductive Lhs where
  | moduleExports
  | exportsProp (name : String)
  | otherLhs
deriving DecidableEq, Repr

inductive JsNode where
  | functionDecl (name : Option String) (params : Nat) (async gen : Bool) (line : Nat)
  | classDecl (name : Option String) (methods : List MethodDef) (line : Nat)
  | importDecl (source : String) (specs : List ImpSpec) (line : Nat)
  | exportNamed (source : Option String) (specs : List String) (line : Nat)
  | exportDefault (line : Nat)
  | exportAll (source : String) (line : Nat)
  | importExpr (src : JsNode) (line : Nat)
  | callExpr (callee : JsNode) (args : List JsNode) (line : Nat)
  | assign (left : Lhs) (line : Nat)
  | stringLit (v : String)
  | ident (name : String)
  | other (children : List JsNode)

/-- Raw import record pushed by the visitors (before path resolution).
`specifiers = none` models records without a `specifiers` key
(dynamic imports and requires). -/
structure RawImport where
  itype : String
  source : Option String
  specifiers : Option (List String) := none
  dynamic : Bool := false
  line : Nat
deriving DecidableEq, Repr

structure ExportRec where
  etype : String
  specifiers : Option (List String) := none
  source : Option String := none
  kind : Option String := none
  property : Option String := none
  line : Nat
deriving DecidableEq, Repr

/-- Call record; `resolved` has no producer in the parser (it stays
undefined), but `GraphBuilder` tests it. -/
structure CallRec where
  fn : String
  line : Nat
  resolved : Option String := none
deriving DecidableEq, Repr

structure FuncRec where
  ftype : String
  name : String
  className : Option String := none
  methodName : Option String := none
  kind : Option String := none
  static : Bool := false
  async : Bool := false
  generator : Bool := false
  params : Nat
  line : Nat
deriving DecidableEq, Repr

structure RawFacts where
  imports : List RawImport := []
  exports : List ExportRec := []
  calls : List CallRec := []
  functions : List FuncRec := []
deriving DecidableEq, Repr

def RawFacts.append (a b : RawFacts) : RawFacts :=
  { imports := a.imports ++ b.imports, exports := a.exports ++ b.exports,
    calls := a.calls ++ b.calls, functions := a.functions ++ b.functions }

/-- DependencyParser.extractImportSpecifiers: `['*']` for a
side-effect import, else one entry per specifier. -/
def extractImportSpecifiers (specs : List ImpSpec) : List String :=
  if specs = [] then ["*"]
  else specs.map (fun s => match s with
    | .dflt => "default"
    | .nspace => "*"
    | .named n => n)

/-- `node.callee.name`: defined only for identifiers. -/
def calleeName : JsNode → Option String
  | .ident n => some n
  | _ => none

/-- Facts the visitor for a single node pushes (in the source's visitor
order within the node). -/
def visitFacts : JsNode → RawFacts
  | .functionDecl name params async gen line =>
    match name with
    | some n =>
      { functions := [{ ftype := "function", name := n, params := params,
                        async := async, generator := gen, line := line }] }
    | none => {}
  | .classDecl name methods line =>
    let className := name.getD "AnonymousClass"
    let _ := line
    { functions := methods.foldl
        (fun acc m => match m.name with
          | some mn =>
            acc ++ [{ ftype := "method", name := className ++ "." ++ mn,
                      className := some className, methodName := some mn,
                      kind := some (m.kind.getD "method"), static := m.static,
                      async := m.async, params := m.params, line := m.line }]
          | none => acc)
        [] }
  | .importDecl source specs line =>
    { imports := [{ itype := "import", source := some source,
                    specifiers := some (extractImportSpecifiers specs), line := line }] }
  | .exportNamed source specs line =>
    let imps : List RawImport :=
      match source with
      | some s => [{ itype := "import", source := some s, specifiers := some specs,
                     line := line }]
      | none => []
    { imports := imps,
      exports := [{ etype := "named", specifiers := some specs, line := line }] }
  | .exportDefault line => { exports := [{ etype := "default", line := line }] }
  | .exportAll source line =>
    { imports := [{ itype := "import", source := some source, specifiers := some ["*"],
                    line := line }],
      exports := [{ etype := "all", source := some source, line := line }] }
  | .importExpr src line =>
    match src with
    | .stringLit v =>
      { imports := [{ itype := "dynamic-import", source := some v, dynamic := true,
                      line := line }] }
    | _ => {}
  | .callExpr callee args line =>
    let requireImports : List RawImport :=
      if calleeName callee == some "require" && args.length > 0 then
        match args.head? with
        | some (.stringLit v) => [{ itype := "require", source := some v, line := line }]
        | _ => [{ itype := "require", source := none, dynamic := true, line := line }]
      else []
    let callRecs : List CallRec :=
      match callee with
      | .ident n => [{ fn := n, line := line }]
      | _ => []
    { imports := requireImports, calls := callRecs }
  | .assign left line =>
    match left with
    | .moduleExports =>
      { exports := [{ etype := "commonjs", kind := some "module.exports", line := line }] }
    | .exportsProp p =>
      { exports := [{ etype := "commonjs", kind := some "exports", property := some p,
                      line := line }] }
    | .otherLhs => {}
  | .stringLit _ => {}
  | .ident _ => {}
  | .other _ => {}

mutual
/-- DependencyParser.walkAST: pre-order — visit the node, then recurse
into its children. -/
def walkNode : JsNode → RawFacts
  | .importExpr src line =>
    RawFacts.append (visitFacts (.importExpr src line)) (walkNode src)
  | .callExpr callee args line =>
    RawFacts.append (visitFacts (.callExpr callee args line))
      (RawFacts.append (walkNode callee) (walkList args))
  | .other children => walkList children
  | n => visitFacts n

def walkList : List JsNode → RawFacts
  | [] => {}
  | n :: rest => RawFacts.append (walkNode n) (walkList rest)
end

/-!
Path resolution (`resolveImportPath`), over a model of the `path`
module's `dirname`/`resolve`/`extname` for the slash-separated absolute
paths this code feeds them. -/

/-- Node `path.dirname` for absolute POSIX paths. -/
def dirname (p : String) : String :=
  let parts := p.splitOn "/"
  if parts.length ≤ 1 then "."
  else
    let dir := String.intercalate "/" (parts.dropLast)
    if dir = "" then "/" else dir

/-- Resolve `.` and `..` segments of an absolute slash path. -/
def normalizeSegs (segs : List String) : List String :=
  segs.foldl
    (fun acc s =>
      if s = "" ∨ s = "." then acc
      else if s = ".." then acc.dropLast
      else acc ++ [s])
    []

/-- Node `path.resolve(base, target)` for an absolute `base` and a
relative-or-absolute `target`. -/
def resolvePath (base target : String) : String :=
  let joined := if strStartsWith target "/" then target else base ++ "/" ++ target
  "/" ++ String.intercalate "/" (normalizeSegs (joined.splitOn "/"))

/-- Node `path.extname`: the suffix of the last segment from its last
dot, empty for dotless or leading-dot-only basenames. -/
def extname (p : String) : String :=
  let base := (p.splitOn "/").getLast?.getD ""
  let dotParts := base.splitOn "."
  if dotParts.length ≤ 1 then ""
  else if dotParts.length = 2 ∧ dotParts.head?.getD "" = "" then ""
  else "." ++ (dotParts.getLast?.getD "")

structure ResolvedPathInfo where
  rtype : String
  path : String
deriving DecidableEq, Repr

/-- DependencyParser.resolveImportPath: bare specifiers are external; `.`
or `/` specifiers resolve against the importing file's directory, and the
suffix-candidate loop breaks on its first iteration, so a suffixless
resolution always gets `.js` appended, without filesystem checks. -/
def resolveImportPath (importPath fromFile : String) : ResolvedPathInfo :=
  if strStartsWith importPath "." = false ∧ strStartsWith importPath "/" = false then
    { rtype := "external", path := importPath }
  else
    let fromDir := dirname fromFile
    let resolved := resolvePath fromDir importPath
    let resolved := if extname resolved = "" then resolved ++ ".js" else resolved
    { rtype := "relative", path := resolved }

/-- Import record after the `resolvedPath` annotation pass. -/
structure ResolvedImport where
  itype : String
  source : Option String
  specifiers : Option (List String) := none
  dynamic : Bool := false
  line : Nat
  resolvedPath : Option ResolvedPathInfo := none
deriving DecidableEq, Repr

/-- Return value of `extractDependencies`. -/
structure DepsResult where
  imports : List ResolvedImport
  exports : List ExportRec
  calls : List CallRec
  functions : List FuncRec
  filePath : String
deriving DecidableEq, Repr

/-- DependencyParser.extractDependencies: walk the program body, then
annotate each import with `resolvedPath` (`null` when `imp.source` is
null or empty — a JS truthiness test). -/
def extractDependencies (ast : List JsNode) (filePath : String) : DepsResult :=
  let raw := walkList ast
  { imports := raw.imports.map (fun imp =>
      { itype := imp.itype, source := imp.source, specifiers := imp.specifiers,
        dynamic := imp.dynamic, line := imp.line,
        resolvedPath := match imp.source with
          | some s => if s ≠ "" then some (resolveImportPath s filePath) else none
          | none => none }),
    exports := raw.exports, calls := raw.calls, functions := raw.functions,
    filePath := filePath }

/-- DependencyParser.parseSource: try the module grammar, fall back to the
script grammar, and re-throw the original (module-mode) error when both
fail.  The two grammar attempts on the file's content are the function's
environment, passed as their outcomes. -/
def parseSource (moduleParse scriptParse : Except String (List JsNode))
    (filePath : String) : Except String DepsResult :=
  match moduleParse with
  | .ok ast => .ok (extractDependencies ast filePath)
  | .error e =>
    match scriptParse with
    | .ok ast => .ok (extractDependencies ast filePath)
    | .error _ => .error e

/-- Return value of `parseFile`.  On the failure path the object literal
has no `functions` or `filePath` key (they are undefined, modelled
`none`), and a success result has no `error` key. -/
structure FileParseResult where
  imports : List ResolvedImport
  exports : List ExportRec
  calls : List CallRec
  functions : Option (List FuncRec)
  filePath : Option String
  error : Option String
deriving DecidableEq, Repr

/-- DependencyParser.parseFile on an uncached path: every throw from the
read/parse pipeline is caught and converted into the empty-listed error
result, so the function is total — nothing is raised to the caller. -/
def parseFile (moduleParse scriptParse : Except String (List JsNode))
    (filePath : String) : FileParseResult :=
  match parseSource moduleParse scriptParse filePath with
  | .ok r =>
    { imports := r.imports, exports := r.exports, calls := r.calls,
      functions := some r.functions, filePath := some r.filePath, error := none }
  | .error e =>
    { imports := [], exports := [], calls := [], functions := none, filePath := none,
      error := some e }

/-!
GraphBuilder (`src/analyzers/GraphBuilder.js`). -/

/-- A scanned file as `FileScanner` + `_countLOC` deliver it: absolute
path, byte size, modification ISO time, and the line count the builder
computes before registering the node. -/
structure FileInfo where
  path : String
  size : Nat
  modified : String
  loc : Nat
deriving DecidableEq, Repr

/-- One `parsedFiles` entry of `buildGraph`'s phase 2. -/
structure ParsedFile where
  file : FileInfo
  deps : FileParseResult

/-- GraphBuilder._isExternalPackage: null/undefined specifiers are not
external; otherwise external iff the specifier starts with neither `.`
nor `/`. -/
def isExternalPackage (modulePath : Option String) : Bool :=
  match modulePath with
  | none => false
  | some s => if s = "" then false else !(strStartsWith s ".") && !(strStartsWith s "/")

/-- Metadata `buildGraph` passes to `addFile` for a scanned file:
`parseError` is the truthiness of `dependencies.error`, and
`parseErrorMessage` is `dependencies.error || undefined`. -/
def fileMetaOf (pf : ParsedFile) : FileMeta :=
  let errTruthy := match pf.deps.error with | some m => m ≠ "" | none => false
  { size := some pf.file.size, mtime := some pf.file.modified, loc := some pf.file.loc,
    parseError := some errTruthy,
    parseErrorMessage := match pf.deps.error with
      | some m => if m ≠ "" then some m else none
      | none => none }

/-- The per-import step of `buildGraph`'s phase 3: external specifiers get
a Module node and an edge; resolved local targets get an edge, plus a
synthesized `isMissing` File node when absent from the scanned set; and
imports with no truthy `resolvedPath.path` are skipped. -/
def processImport (scanned : List String) (filePath : String) (d : Dataset)
    (imp : ResolvedImport) : Dataset :=
  if isExternalPackage imp.source then
    let d := addModule (imp.source.getD "") true d
    addImport filePath (imp.source.getD "") { line := imp.line, itype := some imp.itype } d
  else
    match imp.resolvedPath with
    | some rp =>
      if rp.path ≠ "" then
        if scanned.contains rp.path then
          addImport filePath rp.path { line := imp.line, itype := some imp.itype } d
        else
          let d := addFile rp.path { isMissing := some true } d
          addImport filePath rp.path { line := imp.line, itype := some imp.itype } d
      else d
    | none => d

/-- The per-export step of `buildGraph`'s phase 3 (named exports expand to
one slot per specifier; `exp.specifiers` is always an array, hence
truthy). -/
def processExport (filePath : String) (d : Dataset) (exp : ExportRec) : Dataset :=
  if exp.etype = "named" then
    (exp.specifiers.getD []).foldl
      (fun d specifier =>
        addExport filePath specifier { etype := some "named", line := exp.line } d)
      d
  else if exp.etype = "default" then
    addExport filePath "default" { etype := some "default", line := exp.line } d
  else if exp.etype = "all" then
    addExport filePath "*" { etype := some "all", line := exp.line } d
  else if exp.etype = "commonjs" then
    let exportName := match exp.property with
      | some p => if p ≠ "" then p else "module.exports"
      | none => "module.exports"
    addExport filePath exportName { etype := some "commonjs", line := exp.line } d
  else d

/-- The per-call step: `call.resolved` is never set by the parser, so the
guard only fires on a truthy value. -/
def processCall (filePath : String) (d : Dataset) (call : CallRec) : Dataset :=
  match call.resolved with
  | some r => if r ≠ "" then addCall filePath r (some call.line) d else d
  | none => d

/-- The per-function step: `addFunction` keyed by `path#name` (only the
`name` metadata key is consumed by `RDFModel.addFunction`). -/
def processFunction (filePath : String) (d : Dataset) (f : FuncRec) : Dataset :=
  addFunction (filePath ++ "#" ++ f.name) { name := some f.name } d

/-- The whole phase-3 body for one parsed file. -/
def processFile (scanned : List String) (d : Dataset) (pf : ParsedFile) : Dataset :=
  let d := pf.deps.imports.foldl (processImport scanned pf.file.path) d
  let d := pf.deps.exports.foldl (processExport pf.file.path) d
  let d := pf.deps.calls.foldl (processCall pf.file.path) d
  (pf.deps.functions.getD []).foldl (processFunction pf.file.path) d

/-- GraphBuilder.buildGraph phase 3: register a File node per scanned
file, then add all dependency edges against the scanned-path set. -/
def buildGraphModel (pfs : List ParsedFile) : Dataset :=
  let d0 := pfs.foldl (fun d pf => addFile pf.file.path (fileMetaOf pf) d) (∅ : Dataset)
  let scanned := pfs.map (fun pf => pf.file.path)
  pfs.foldl (processFile scanned) d0

/-- GraphBuilder._autoDetectEntryPoints: collect every import target whose
id starts with `file://`, then flag (and count) every File node outside
that set. -/
def autoDetectEntryPoints (d : Dataset) : Dataset × Nat :=
  let files := queryNodesByType d "file"
  let allImportTargets := files.foldl
    (fun acc f => acc ++ (queryImports d f).filter (fun i => strStartsWith i "file://"))
    []
  files.foldl
    (fun st f =>
      if allImportTargets.contains f then st
      else (markAsEntryPoint f st.1, st.2 + 1))
    (d, 0)

/-- Modelled from the spec's words, for comparison with
`autoDetectEntryPoints`: the File nodes with zero incoming `imports`
edges from other scanned files (imports of external modules are ignored,
since only edges between File nodes are counted). -/
def specZeroIncomingImportFiles (d : Dataset) : List String :=
  let files := queryNodesByType d "file"
  files.filter (fun f =>
    ¬ files.any (fun g => g ≠ f && RdfQuad.mk (RdfTerm.nn g) (erfNS "imports") (RdfTerm.nn f) ∈ d))

/-!
Lemmas about the dataset operations: every mutator only appends quads, so
membership is monotone, and each mutator's additions are characterized by
their predicates. -/

theorem mem_dataset_add {q : RdfQuad} {d : Dataset} (q' : RdfQuad) (h : q ∈ d) :
    q ∈ Dataset.add d q' := by
  unfold Dataset.add
  split
  · exact h
  · exact List.mem_append_left _ h

theorem mem_dataset_add_self {q : RdfQuad} {d : Dataset} : q ∈ Dataset.add d q := by
  unfold Dataset.add
  split
  · assumption
  · exact List.mem_append_right _ (List.mem_singleton_self q)

theorem dataset_add_elim {q q' : RdfQuad} {d : Dataset} (h : q ∈ Dataset.add d q') :
    q ∈ d ∨ q = q' := by
  unfold Dataset.add at h
  split at h
  · exact Or.inl h
  · rcases List.mem_append.mp h with h | h
    · exact Or.inl h
    · exact Or.inr (List.mem_singleton.mp h)

theorem dataset_add_of_mem {q : RdfQuad} {d : Dataset} (h : q ∈ d) :
    Dataset.add d q = d := by
  unfold Dataset.add
  simp [h]

theorem addTriple_mono {q : RdfQuad} (s p o : RdfTerm) {d : Dataset} (h : q ∈ d) :
    q ∈ addTriple s p o d :=
  mem_dataset_add _ h

theorem addTriple_self (s p o : RdfTerm) (d : Dataset) : RdfQuad.mk s p o ∈ addTriple s p o d :=
  mem_dataset_add_self

theorem addTriple_elim {q : RdfQuad} {s p o : RdfTerm} {d : Dataset}
    (h : q ∈ addTriple s p o d) : q ∈ d ∨ q = RdfQuad.mk s p o :=
  dataset_add_elim h

set_option maxHeartbeats 1000000 in
theorem addFile_mono {q : RdfQuad} (fp : String) (m : FileMeta) {d : Dataset} (h : q ∈ d) :
    q ∈ addFile fp m d := by
  unfold addFile
  try dsimp only
  repeat' split
  all_goals repeat first | exact h | apply addTriple_mono

theorem addModule_mono {q : RdfQuad} (mp : String) (ext : Bool) {d : Dataset} (h : q ∈ d) :
    q ∈ addModule mp ext d := by
  unfold addModule
  try dsimp only
  repeat' split
  all_goals repeat first | exact h | apply addTriple_mono

theorem addFunction_mono {q : RdfQuad} (fid : String) (m : FunctionMeta) {d : Dataset}
    (h : q ∈ d) : q ∈ addFunction fid m d := by
  unfold addFunction
  try dsimp only
  repeat' split
  all_goals repeat first | exact h | apply addTriple_mono

theorem addImport_mono {q : RdfQuad} (f t : String) (m : ImportMeta) {d : Dataset}
    (h : q ∈ d) : q ∈ addImport f t m d := by
  unfold addImport
  try dsimp only
  repeat' split
  all_goals repeat first | exact h | apply addTriple_mono

theorem addExport_mono {q : RdfQuad} (f n : String) (m : ExportMeta) {d : Dataset}
    (h : q ∈ d) : q ∈ addExport f n m d := by
  unfold addExport
  try dsimp only
  repeat' split
  all_goals repeat first | exact h | apply addTriple_mono

theorem addCall_mono {q : RdfQuad} (f t : String) (l : Option Nat) {d : Dataset}
    (h : q ∈ d) : q ∈ addCall f t l d := by
  unfold addCall
  try dsimp only
  repeat' split
  all_goals repeat first | exact h | apply addTriple_mono

theorem markAsEntryPoint_mono {q : RdfQuad} (n : String) {d : Dataset} (h : q ∈ d) :
    q ∈ markAsEntryPoint n d :=
  addTriple_mono _ _ _ h

theorem foldl_dataset_mono {α : Type} {step : Dataset → α → Dataset}
    (hstep : ∀ (d : Dataset) (x : α) (q : RdfQuad), q ∈ d → q ∈ step d x)
    (l : List α) {d : Dataset} {q : RdfQuad} (h : q ∈ d) : q ∈ l.foldl step d := by
  induction l generalizing d with
  | nil => exact h
  | cons x xs ih => exact ih (hstep _ _ _ h)

theorem processImport_mono {q : RdfQuad} (sc : List String) (fp : String) {d : Dataset}
    (imp : ResolvedImport) (h : q ∈ d) : q ∈ processImport sc fp d imp := by
  unfold processImport
  dsimp only
  split
  · exact addImport_mono _ _ _ (addModule_mono _ _ h)
  · split
    · split
      · split
        · exact addImport_mono _ _ _ h
        · exact addImport_mono _ _ _ (addFile_mono _ _ h)
      · exact h
    · exact h

theorem processExport_mono {q : RdfQuad} (fp : String) {d : Dataset} (e : ExportRec)
    (h : q ∈ d) : q ∈ processExport fp d e := by
  unfold processExport
  try dsimp only
  repeat' split
  all_goals repeat first
    | exact h
    | apply addExport_mono
    | exact foldl_dataset_mono (fun d x q hq => addExport_mono _ _ _ hq) _ h

theorem processCall_mono {q : RdfQuad} (fp : String) {d : Dataset} (c : CallRec)
    (h : q ∈ d) : q ∈ processCall fp d c := by
  unfold processCall
  try dsimp only
  repeat' split
  all_goals repeat first | exact h | apply addCall_mono

theorem processFunction_mono {q : RdfQuad} (fp : String) {d : Dataset} (f : FuncRec)
    (h : q ∈ d) : q ∈ processFunction fp d f :=
  addFunction_mono _ _ h

theorem processFile_mono {q : RdfQuad} (sc : List String) {d : Dataset} (pf : ParsedFile)
    (h : q ∈ d) : q ∈ processFile sc d pf := by
  unfold processFile
  exact foldl_dataset_mono (fun d x q hq => processFunction_mono _ _ hq) _
    (foldl_dataset_mono (fun d x q hq => processCall_mono _ _ hq) _
      (foldl_dataset_mono (fun d x q hq => processExport_mono _ _ hq) _
        (foldl_dataset_mono (fun d x q hq => processImport_mono _ _ _ hq) _ h)))

theorem addTriple_elim_ne {q : RdfQuad} {s p o : RdfTerm} {d : Dataset}
    (h : q ∈ addTriple s p o d) (hq : q.p = erfNS "imports") (hp : p ≠ erfNS "imports") :
    q ∈ d := by
  rcases addTriple_elim h with h | rfl
  · exact h
  · exact absurd hq hp

set_option maxHeartbeats 1000000 in
theorem addFile_imports_elim {q : RdfQuad} {fp : String} {m : FileMeta} {d : Dataset}
    (h : q ∈ addFile fp m d) (hq : q.p = erfNS "imports") : q ∈ d := by
  unfold addFile at h
  dsimp only at h
  repeat' split at h
  all_goals repeat first
    | exact h
    | replace h := addTriple_elim_ne h hq (by decide)

theorem addModule_imports_elim {q : RdfQuad} {mp : String} {ext : Bool} {d : Dataset}
    (h : q ∈ addModule mp ext d) (hq : q.p = erfNS "imports") : q ∈ d := by
  unfold addModule at h
  dsimp only at h
  repeat' split at h
  all_goals repeat first
    | exact h
    | replace h := addTriple_elim_ne h hq (by decide)

theorem addExport_imports_elim {q : RdfQuad} {f n : String} {m : ExportMeta} {d : Dataset}
    (h : q ∈ addExport f n m d) (hq : q.p = erfNS "imports") : q ∈ d := by
  unfold addExport at h
  dsimp only at h
  repeat' split at h
  all_goals repeat first
    | exact h
    | replace h := addTriple_elim_ne h hq (by decide)

theorem addCall_imports_elim {q : RdfQuad} {f t : String} {l : Option Nat} {d : Dataset}
    (h : q ∈ addCall f t l d) (hq : q.p = erfNS "imports") : q ∈ d := by
  unfold addCall at h
  dsimp only at h
  repeat' split at h
  all_goals repeat first
    | exact h
    | replace h := addTriple_elim_ne h hq (by decide)

theorem addFunction_imports_elim {q : RdfQuad} {fid : String} {m : FunctionMeta} {d : Dataset}
    (h : q ∈ addFunction fid m d) (hq : q.p = erfNS "imports") : q ∈ d := by
  unfold addFunction at h
  dsimp only at h
  repeat' split at h
  all_goals repeat first
    | exact h
    | replace h := addTriple_elim_ne h hq (by decide)

/-- The only `erf:imports` quad `addImport` can produce is its edge. -/
theorem addImport_imports_elim {q : RdfQuad} {f t : String} {m : ImportMeta} {d : Dataset}
    (h : q ∈ addImport f t m d) (hq : q.p = erfNS "imports") :
    q ∈ d ∨ q = RdfQuad.mk (RdfTerm.nn f) (erfNS "imports") (RdfTerm.nn t) := by
  unfold addImport at h
  dsimp only at h
  repeat' split at h
  all_goals repeat first
    | exact addTriple_elim h
    | replace h := addTriple_elim_ne h hq (by decide)

theorem addImport_edge_self (f t : String) (m : ImportMeta) (d : Dataset) :
    RdfQuad.mk (RdfTerm.nn f) (erfNS "imports") (RdfTerm.nn t) ∈ addImport f t m d := by
  unfold addImport
  dsimp only
  repeat' split
  all_goals repeat first
    | exact addTriple_self _ _ _ _
    | apply addTriple_mono

set_option maxHeartbeats 1000000 in
theorem addFile_type_self (p : String) (m : FileMeta) (d : Dataset) :
    RdfQuad.mk (RdfTerm.nn p) rdfType (erfNS "File") ∈ addFile p m d := by
  unfold addFile
  dsimp only
  repeat' split
  all_goals repeat first
    | exact addTriple_self _ _ _ _
    | apply addTriple_mono

theorem addFile_missing_self (p : String) (d : Dataset) :
    RdfQuad.mk (RdfTerm.nn p) (erfNS "isMissing") litTrue ∈
      addFile p { isMissing := some true } d := by
  unfold addFile
  dsimp only
  exact addTriple_self _ _ _ _

theorem addModule_type_self (mp : String) (ext : Bool) (d : Dataset) :
    RdfQuad.mk (RdfTerm.nn mp) rdfType (erfNS "Module") ∈ addModule mp ext d := by
  unfold addModule
  dsimp only
  split
  · exact addTriple_mono _ _ _ (addTriple_self _ _ _ _)
  · exact addTriple_self _ _ _ _

theorem addModule_external_self (mp : String) (d : Dataset) :
    RdfQuad.mk (RdfTerm.nn mp) (erfNS "isExternal") litTrue ∈ addModule mp true d := by
  unfold addModule
  dsimp only
  exact addTriple_self _ _ _ _

/-- The disjunction the imports-closure invariant asserts for the object
of an `erf:imports` edge: a Module node flagged external, or a File node
that is either a scanned file or flagged missing. -/
def importsClosedAt (pfs : List ParsedFile) (d : Dataset) (o : RdfTerm) : Prop :=
  (RdfQuad.mk o rdfType (erfNS "Module") ∈ d ∧
   RdfQuad.mk o (erfNS "isExternal") litTrue ∈ d) ∨
  (RdfQuad.mk o rdfType (erfNS "File") ∈ d ∧
   ((∃ pf ∈ pfs, o = RdfTerm.nn pf.file.path) ∨
    RdfQuad.mk o (erfNS "isMissing") litTrue ∈ d))

theorem importsClosedAt_mono {pfs : List ParsedFile} {d d' : Dataset} {o : RdfTerm}
    (hsub : ∀ q : RdfQuad, q ∈ d → q ∈ d') (h : importsClosedAt pfs d o) :
    importsClosedAt pfs d' o := by
  rcases h with ⟨h1, h2⟩ | ⟨h1, h2⟩
  · exact Or.inl ⟨hsub _ h1, hsub _ h2⟩
  · rcases h2 with h2 | h2
    · exact Or.inr ⟨hsub _ h1, Or.inl h2⟩
    · exact Or.inr ⟨hsub _ h1, Or.inr (hsub _ h2)⟩

/-- The invariant carried through phase 3: every scanned file's type
triple is present, and every `erf:imports` quad is closed. -/
def buildInv (pfs : List ParsedFile) (d : Dataset) : Prop :=
  (∀ pf ∈ pfs, RdfQuad.mk (RdfTerm.nn pf.file.path) rdfType (erfNS "File") ∈ d) ∧
  (∀ q ∈ d, q.p = erfNS "imports" → importsClosedAt pfs d q.o)

theorem foldl_imports_elim {α : Type} {step : Dataset → α → Dataset}
    (hstep : ∀ (d : Dataset) (x : α) (q : RdfQuad),
      q ∈ step d x → q.p = erfNS "imports" → q ∈ d)
    (l : List α) {d : Dataset} {q : RdfQuad} (h : q ∈ l.foldl step d)
    (hq : q.p = erfNS "imports") : q ∈ d := by
  induction l generalizing d with
  | nil => exact h
  | cons x xs ih => exact hstep _ _ _ (ih h) hq

theorem processExport_imports_elim {q : RdfQuad} {fp : String} {d : Dataset} {e : ExportRec}
    (h : q ∈ processExport fp d e) (hq : q.p = erfNS "imports") : q ∈ d := by
  unfold processExport at h
  repeat' split at h
  all_goals repeat first
    | exact h
    | exact addExport_imports_elim h hq
    | replace h := foldl_imports_elim
        (fun d x q hm hp => addExport_imports_elim hm hp) _ h hq

theorem processCall_imports_elim {q : RdfQuad} {fp : String} {d : Dataset} {c : CallRec}
    (h : q ∈ processCall fp d c) (hq : q.p = erfNS "imports") : q ∈ d := by
  unfold processCall at h
  repeat' split at h
  all_goals first
    | exact h
    | exact addCall_imports_elim h hq

theorem processFunction_imports_elim {q : RdfQuad} {fp : String} {d : Dataset} {f : FuncRec}
    (h : q ∈ processFunction fp d f) (hq : q.p = erfNS "imports") : q ∈ d :=
  addFunction_imports_elim h hq

theorem foldl_preserves_inv {α : Type} (P : Dataset → Prop) (step : Dataset → α → Dataset)
    (hstep : ∀ (d : Dataset) (x : α), P d → P (step d x)) :
    ∀ (l : List α) (d : Dataset), P d → P (l.foldl step d)
  | [], _, h => h
  | x :: xs, d, h => foldl_preserves_inv P step hstep xs (step d x) (hstep d x h)

theorem buildInv_of_imports_elim {pfs : List ParsedFile} {d : Dataset}
    (f : Dataset → Dataset)
    (hmono : ∀ q : RdfQuad, q ∈ d → q ∈ f d)
    (helim : ∀ q : RdfQuad, q ∈ f d → q.p = erfNS "imports" → q ∈ d)
    (hInv : buildInv pfs d) : buildInv pfs (f d) := by
  refine ⟨fun pf hpf => hmono _ (hInv.1 pf hpf), fun q hq hp => ?_⟩
  exact importsClosedAt_mono hmono (hInv.2 q (helim q hq hp) hp)

theorem processImport_preserves {pfs : List ParsedFile} {d : Dataset} {fp : String}
    (imp : ResolvedImport) (hInv : buildInv pfs d) :
    buildInv pfs (processImport (pfs.map (fun pf => pf.file.path)) fp d imp) := by
  by_cases hext : isExternalPackage imp.source = true
  · -- external specifier: Module node + edge
    rw [processImport, if_pos hext]
    refine ⟨fun pf hpf => addImport_mono _ _ _ (addModule_mono _ _ (hInv.1 pf hpf)),
            fun q hq hp => ?_⟩
    rcases addImport_imports_elim hq hp with hmem | rfl
    · have hd : q ∈ d := addModule_imports_elim hmem hp
      exact importsClosedAt_mono
        (fun q hq => addImport_mono _ _ _ (addModule_mono _ _ hq)) (hInv.2 q hd hp)
    · exact Or.inl
        ⟨addImport_mono _ _ _ (addModule_type_self _ _ _),
         addImport_mono _ _ _ (addModule_external_self _ _)⟩
  · rw [processImport, if_neg hext]
    cases hrp : imp.resolvedPath with
    | none => exact hInv
    | some rp =>
      dsimp only
      by_cases hne : rp.path = ""
      · rw [if_neg (by simp [hne])]
        exact hInv
      · rw [if_pos (by simp [hne])]
        by_cases hc : (pfs.map (fun pf => pf.file.path)).contains rp.path = true
        · -- resolved target among the scanned files
          rw [if_pos hc]
          refine ⟨fun pf hpf => addImport_mono _ _ _ (hInv.1 pf hpf), fun q hq hp => ?_⟩
          rcases addImport_imports_elim hq hp with hqd | rfl
          · exact importsClosedAt_mono (fun q hq => addImport_mono _ _ _ hq)
              (hInv.2 q hqd hp)
          · have hmem : rp.path ∈ pfs.map (fun pf => pf.file.path) := by
              simpa using hc
            rcases List.mem_map.mp hmem with ⟨pf, hpf, hpath⟩
            refine Or.inr ⟨?_, Or.inl ⟨pf, hpf, by rw [hpath]⟩⟩
            have hty := hInv.1 pf hpf
            rw [hpath] at hty
            exact addImport_mono _ _ _ hty
        · -- resolved target absent: synthesized missing File node + edge
          rw [if_neg hc]
          refine ⟨fun pf hpf =>
              addImport_mono _ _ _ (addFile_mono _ _ (hInv.1 pf hpf)),
            fun q hq hp => ?_⟩
          rcases addImport_imports_elim hq hp with hmem | rfl
          · have hd : q ∈ d := addFile_imports_elim hmem hp
            exact importsClosedAt_mono
              (fun q hq => addImport_mono _ _ _ (addFile_mono _ _ hq)) (hInv.2 q hd hp)
          · exact Or.inr
              ⟨addImport_mono _ _ _ (addFile_type_self _ _ _),
               Or.inr (addImport_mono _ _ _ (addFile_missing_self _ _))⟩

theorem processFile_preserves {pfs : List ParsedFile} {d : Dataset} (pf : ParsedFile)
    (hInv : buildInv pfs d) :
    buildInv pfs (processFile (pfs.map (fun pf => pf.file.path)) d pf) := by
  unfold processFile
  dsimp only
  refine foldl_preserves_inv _ _ (fun d x h => buildInv_of_imports_elim
      (fun d' => processFunction pf.file.path d' x)
      (fun q hq => processFunction_mono _ _ hq)
      (fun q hq hp => processFunction_imports_elim hq hp) h)
    _ _ ?_
  refine foldl_preserves_inv _ _ (fun d x h => buildInv_of_imports_elim
      (fun d' => processCall pf.file.path d' x)
      (fun q hq => processCall_mono _ _ hq)
      (fun q hq hp => processCall_imports_elim hq hp) h)
    _ _ ?_
  refine foldl_preserves_inv _ _ (fun d x h => buildInv_of_imports_elim
      (fun d' => processExport pf.file.path d' x)
      (fun q hq => processExport_mono _ _ hq)
      (fun q hq hp => processExport_imports_elim hq hp) h)
    _ _ ?_
  exact foldl_preserves_inv _ _ (fun d imp h => processImport_preserves imp h) _ _ hInv

theorem phaseA_type_mem :
    ∀ (l : List ParsedFile) (d : Dataset) (pf : ParsedFile), pf ∈ l →
      RdfQuad.mk (RdfTerm.nn pf.file.path) rdfType (erfNS "File") ∈
        l.foldl (fun d pf => addFile pf.file.path (fileMetaOf pf) d) d := by
  intro l
  induction l with
  | nil => intro d pf h; cases h
  | cons x xs ih =>
    intro d pf h
    rw [List.foldl_cons]
    rcases List.mem_cons.mp h with rfl | h
    · exact foldl_dataset_mono (fun d x q hq => addFile_mono _ _ hq) _
        (addFile_type_self _ _ _)
    · exact ih _ pf h

theorem phaseA_no_imports (pfs : List ParsedFile) {q : RdfQuad}
    (h : q ∈ pfs.foldl (fun d pf => addFile pf.file.path (fileMetaOf pf) d) (∅ : Dataset))
    (hq : q.p = erfNS "imports") : False := by
  have hmem : q ∈ (∅ : Dataset) :=
    foldl_imports_elim (fun d x q hm hp => addFile_imports_elim hm hp) pfs h hq
  cases hmem

theorem buildGraphModel_inv (pfs : List ParsedFile) :
    buildInv pfs (buildGraphModel pfs) := by
  unfold buildGraphModel
  dsimp only
  refine foldl_preserves_inv _ _ (fun d pf h => processFile_preserves pf h) _ _ ?_
  constructor
  · intro pf hpf
    exact phaseA_type_mem pfs (∅ : Dataset) pf hpf
  · intro q hq hp
    exact (phaseA_no_imports pfs hq hp).elim

theorem mem_foldl_of_step {α : Type} (step : Dataset → α → Dataset)
    (hmono : ∀ (d : Dataset) (x : α) (q : RdfQuad), q ∈ d → q ∈ step d x)
    {l : List α} {x : α} (hx : x ∈ l) {q : RdfQuad}
    (hq : ∀ d : Dataset, q ∈ step d x) (d : Dataset) : q ∈ l.foldl step d := by
  obtain ⟨s, t, rfl⟩ := List.append_of_mem hx
  rw [List.foldl_append, List.foldl_cons]
  exact foldl_dataset_mono hmono t (hq _)

/-- The missing-target branch of the import step establishes the edge, the
synthesized File node's type, and the missing flag, from any dataset. -/
theorem processImport_missing_facts {sc : List String} {fp : String}
    {imp : ResolvedImport} {rp : ResolvedPathInfo}
    (hext : isExternalPackage imp.source = false) (hrp : imp.resolvedPath = some rp)
    (hne : rp.path ≠ "") (hc : sc.contains rp.path = false) (d : Dataset) :
    RdfQuad.mk (RdfTerm.nn fp) (erfNS "imports") (RdfTerm.nn rp.path) ∈
      processImport sc fp d imp ∧
    RdfQuad.mk (RdfTerm.nn rp.path) rdfType (erfNS "File") ∈ processImport sc fp d imp ∧
    RdfQuad.mk (RdfTerm.nn rp.path) (erfNS "isMissing") litTrue ∈
      processImport sc fp d imp := by
  rw [processImport, if_neg (by rw [hext]; simp), hrp]
  dsimp only
  rw [if_pos hne, if_neg (by rw [hc]; simp)]
  exact ⟨addImport_edge_self _ _ _ _,
         addImport_mono _ _ _ (addFile_type_self _ _ _),
         addImport_mono _ _ _ (addFile_missing_self _ _)⟩

theorem processFile_mem_of_imports {q : RdfQuad} {sc : List String} {d : Dataset}
    {pf : ParsedFile} (h : q ∈ pf.deps.imports.foldl (processImport sc pf.file.path) d) :
    q ∈ processFile sc d pf := by
  unfold processFile
  dsimp only
  exact foldl_dataset_mono (fun d x q hq => processFunction_mono _ _ hq) _
    (foldl_dataset_mono (fun d x q hq => processCall_mono _ _ hq) _
      (foldl_dataset_mono (fun d x q hq => processExport_mono _ _ hq) _ h))

/-- Claim C4: after `buildGraph`, the graph is closed under `imports`:
every object of an `erf:imports` edge is a registered node — a Module
node flagged external, or a File node that is either one of the scanned
files or synthesized with `isMissing=true`; and for every non-external
dependency resolved to a path outside the scanned set, the missing File node
is synthesized with its flag and the edge is still added. -/
theorem buildGraph_imports_closed (pfs : List ParsedFile) :
    (∀ s o : RdfTerm, RdfQuad.mk s (erfNS "imports") o ∈ buildGraphModel pfs →
      importsClosedAt pfs (buildGraphModel pfs) o) ∧
    (∀ pf ∈ pfs, ∀ imp ∈ pf.deps.imports, ∀ rp : ResolvedPathInfo,
      isExternalPackage imp.source = false → imp.resolvedPath = some rp →
      rp.path ≠ "" → (pfs.map (fun pf => pf.file.path)).contains rp.path = false →
      RdfQuad.mk (RdfTerm.nn pf.file.path) (erfNS "imports") (RdfTerm.nn rp.path) ∈
        buildGraphModel pfs ∧
      RdfQuad.mk (RdfTerm.nn rp.path) rdfType (erfNS "File") ∈ buildGraphModel pfs ∧
      RdfQuad.mk (RdfTerm.nn rp.path) (erfNS "isMissing") litTrue ∈ buildGraphModel pfs) := by
  constructor
  · intro s o h
    exact (buildGraphModel_inv pfs).2 _ h rfl
  · intro pf hpf imp himp rp hext hrp hne hc
    have hbuild : ∀ q : RdfQuad,
        (∀ d : Dataset, q ∈ processImport (pfs.map (fun pf => pf.file.path)) pf.file.path d imp) →
        q ∈ buildGraphModel pfs := by
      intro q hq
      unfold buildGraphModel
      dsimp only
      exact mem_foldl_of_step (processFile (pfs.map (fun pf => pf.file.path)))
        (fun d x q hq => processFile_mono _ _ hq) hpf
        (fun d => processFile_mem_of_imports
          (mem_foldl_of_step
            (processImport (pfs.map (fun pf => pf.file.path)) pf.file.path)
            (fun d x q hq => processImport_mono _ _ _ hq) himp hq d))
        _
    exact ⟨hbuild _ (fun d => (processImport_missing_facts hext hrp hne hc d).1),
           hbuild _ (fun d => (processImport_missing_facts hext hrp hne hc d).2.1),
           hbuild _ (fun d => (processImport_missing_facts hext hrp hne hc d).2.2)⟩

/-! Lemmas for edge multiplicity (claim C5). -/

theorem queryImports_addTriple_ne {s p o : RdfTerm} {d : Dataset} (x : String)
    (hp : p ≠ erfNS "imports") : queryImports (addTriple s p o d) x = queryImports d x := by
  unfold addTriple Dataset.add queryImports Dataset.filterQ
  split
  · rfl
  · have hfalse : ((RdfQuad.mk s p o).s == RdfTerm.nn x &&
        (RdfQuad.mk s p o).p == erfNS "imports") = false := by
      simp [hp]
    rw [List.filter_append]
    simp [List.filter, hfalse]

/-- Claim C5 (amended): when the `(a imports b)` triple is already in the
dataset, recording the same import again is absorbed — the edge add is
ignored by the dataset and the reified metadata quads do not use the
`erf:imports` predicate — so `queryImports` is unchanged for every
subject: one entry per distinct target, not one per recorded import. -/
theorem queryImports_addImport_present {a b : String} {d : Dataset} (m : ImportMeta)
    (h : RdfQuad.mk (RdfTerm.nn a) (erfNS "imports") (RdfTerm.nn b) ∈ d) (x : String) :
    queryImports (addImport a b m d) x = queryImports d x := by
  unfold addImport
  dsimp only
  rw [show addTriple (RdfTerm.nn a) (erfNS "imports") (RdfTerm.nn b) d = d from
    dataset_add_of_mem h]
  split
  · repeat' split
    all_goals repeat rw [queryImports_addTriple_ne x (by decide)]
  · rfl

/-! Lemmas for the reachability percentage (claim C6). -/

theorem jsRound100_le (r t : Nat) (hr : r ≤ t) : jsRound100 r t ≤ 100 := by
  unfold jsRound100
  rcases Nat.eq_zero_or_pos t with rfl | ht
  · simp
  · have h2t : 0 < 2 * t := by omega
    have hlt : (200 * r + t) / (2 * t) < 101 := by
      rw [Nat.div_lt_iff_lt_mul h2t]
      omega
    omega

theorem jsRound100_self (t : Nat) (ht : 0 < t) : jsRound100 t t = 100 := by
  unfold jsRound100
  rw [show 200 * t + t = t * 201 by ring, show 2 * t = t * 2 by ring,
    Nat.mul_div_mul_left 201 2 ht]

theorem filter_self_of_filter_not_nil {α : Type} {l : List α} {p : α → Bool}
    (h : l.filter (fun a => !(p a)) = []) : l.filter p = l := by
  induction l with
  | nil => rfl
  | cons y ys ih =>
    by_cases hy : p y = true
    · simp only [List.filter_cons, hy, Bool.not_true, Bool.false_eq_true, if_false,
        if_true] at h ⊢
      exact congrArg (y :: ·) (ih h)
    · simp only [List.filter_cons, Bool.not_eq_true'] at h
      rw [if_pos (by simp [Bool.not_eq_true' .. ] at hy ⊢; exact hy)] at h
      cases h

/-!
Concrete inputs used by the claim theorems. -/

/-- A one-file graph with no entry points. -/
def dNoEntry : Dataset := addFile "/t/a.js" {} ∅

/-- Two files, `/r/a.js` imports `/r/b.js`, no entry points yet. -/
def dAuto : Dataset :=
  addImport "/r/a.js" "/r/b.js" { line := some 1, itype := some "import" }
    (addFile "/r/b.js" {} (addFile "/r/a.js" {} ∅))

/-- One scanned file importing a resolved local target absent from the
scanned set. -/
def pfC3 : ParsedFile :=
  { file := { path := "/p/a.js", size := 7, modified := "2024-05-05T00:00:00.000Z", loc := 3 },
    deps :=
      { imports := [
          { itype := "import", source := some "./missing", line := 1,
            resolvedPath := some { rtype := "relative", path := "/p/missing.js" } }],
        exports := [], calls := [], functions := some [], filePath := some "/p/a.js",
        error := none } }

/-- One scanned file with one external and one broken local import. -/
def pfC4 : ParsedFile :=
  { file := { path := "/w/a.js", size := 10, modified := "2024-01-01T00:00:00.000Z", loc := 4 },
    deps :=
      { imports := [
          { itype := "import", source := some "lodash", line := 1,
            resolvedPath := some { rtype := "external", path := "lodash" } },
          { itype := "import", source := some "./gone", line := 2,
            resolvedPath := some { rtype := "relative", path := "/w/gone.js" } }],
        exports := [], calls := [], functions := some [], filePath := some "/w/a.js",
        error := none } }

/-- Two files and one recorded import (line 1) of `/d/b.js` by `/d/a.js`. -/
def dDupBase : Dataset :=
  addImport "/d/a.js" "/d/b.js" { line := some 1, itype := some "import" }
    (addFile "/d/b.js" {} (addFile "/d/a.js" {} ∅))

/-- The same import recorded a second time, at line 5. -/
def dDup : Dataset :=
  addImport "/d/a.js" "/d/b.js" { line := some 5, itype := some "import" } dDupBase

/-- A single file marked as the only entry point (so nothing is dead). -/
def dAllReachable : Dataset := markAsEntryPoint "/x/a.js" (addFile "/x/a.js" {} ∅)

/-- Scenario A: files a, b, c; a imports b; entry points = {a}. -/
def dScenarioA : Dataset :=
  markAsEntryPoint "/s/a.js"
    (addImport "/s/a.js" "/s/b.js" { line := some 1, itype := some "import" }
      (addFile "/s/c.js" {} (addFile "/s/b.js" {} (addFile "/s/a.js" {} ∅))))

/-- A file whose only statement is a dynamic import with a non-literal
specifier. -/
def astNonLiteralDyn : List JsNode := [.importExpr (.ident "x") 3]

/-!
Claim theorems. -/

/-- Claim C1 (counterexample): on a graph with one File node and an
empty entry-point set, detect returns an empty `deadFiles` list — the
File node is not listed dead, refuting "all files are dead: every File
node of the graph is listed in deadFiles". -/
theorem detect_noEntryPoints_not_all_dead :
    queryNodesByType dNoEntry "file" = ["/t/a.js"] ∧
    (detect dNoEntry).deadFiles = [] := by decide

/-- Claim C1 (amended): if the entry-point set is empty, detect
short-circuits without traversing and returns, with a warning, a result
whose deadFiles, deadExports and reachableFiles are all empty and whose
stats are all zero (with no unusedExports entry). -/
theorem detect_noEntryPoints_returns_empty (d : Dataset) (h : queryEntryPoints d = []) :
    detect d =
      { deadFiles := [], deadExports := [], reachableFiles := [],
        stats := { totalFiles := 0, reachableFiles := 0, deadFiles := 0,
                   unusedExports := none, reachabilityPercentage := 0 } } := by
  unfold detect
  rw [h]
  rfl

theorem detect_noEntryPoints_returns_empty_w :
    detect dNoEntry =
      { deadFiles := [], deadExports := [], reachableFiles := [],
        stats := { totalFiles := 0, reachableFiles := 0, deadFiles := 0,
                   unusedExports := none, reachabilityPercentage := 0 } } :=
  detect_noEntryPoints_returns_empty dNoEntry (by decide)

/-- Claim C2 (code-bug evaluation): `/r/b.js` has an incoming imports
edge from `/r/a.js`, yet `_autoDetectEntryPoints` flags BOTH files as
entry points (its `file://` prefix test never matches the bare-path node
ids, so its incoming-import set is computed empty), whereas the set of
File nodes with zero incoming imports from other scanned files — the
documented behaviour — is just `/r/a.js`. -/
theorem autoDetect_flags_imported_files_anyway :
    queryEntryPoints (autoDetectEntryPoints dAuto).1 = ["/r/a.js", "/r/b.js"] ∧
    (autoDetectEntryPoints dAuto).2 = 2 ∧
    specZeroIncomingImportFiles dAuto = ["/r/a.js"] := by decide

/-- Claim C3 (code-bug evaluation): the built graph registers File nodes
(scanned and synthesized-missing alike) under the bare absolute path —
`file://`-prefixed ids are absent, although the repository's own
entry-point lookup, README and integration tests expect them. -/
theorem buildGraph_ids_are_bare_paths :
    queryNodesByType (buildGraphModel [pfC3]) "file" = ["/p/a.js", "/p/missing.js"] ∧
    ¬ ("file:///p/a.js" ∈ queryNodesByType (buildGraphModel [pfC3]) "file") ∧
    ¬ ("file:///p/missing.js" ∈ queryNodesByType (buildGraphModel [pfC3]) "file") := by
  decide

theorem buildGraph_imports_closed_w :
    (RdfQuad.mk (RdfTerm.nn "/w/a.js") (erfNS "imports") (RdfTerm.nn "lodash") ∈
       buildGraphModel [pfC4]) ∧
    importsClosedAt [pfC4] (buildGraphModel [pfC4]) (RdfTerm.nn "lodash") ∧
    (RdfQuad.mk (RdfTerm.nn "/w/a.js") (erfNS "imports") (RdfTerm.nn "/w/gone.js") ∈
       buildGraphModel [pfC4] ∧
     RdfQuad.mk (RdfTerm.nn "/w/gone.js") rdfType (erfNS "File") ∈ buildGraphModel [pfC4] ∧
     RdfQuad.mk (RdfTerm.nn "/w/gone.js") (erfNS "isMissing") litTrue ∈
       buildGraphModel [pfC4]) :=
  ⟨by decide,
   (buildGraph_imports_closed [pfC4]).1 (RdfTerm.nn "/w/a.js") (RdfTerm.nn "lodash")
     (by decide),
   (buildGraph_imports_closed [pfC4]).2 pfC4 (List.mem_singleton.mpr rfl)
     { itype := "import", source := some "./gone", line := 2,
       resolvedPath := some { rtype := "relative", path := "/w/gone.js" } }
     (by decide) { rtype := "relative", path := "/w/gone.js" }
     (by decide) (by decide) (by decide) (by decide)⟩

/-- Claim C5 (counterexample): the same file records an import of the
same target twice (lines 1 and 5), yet queryImports returns a single
entry — one per distinct target, not one per recorded import. -/
theorem addImport_duplicate_single_edge :
    queryImports dDup "/d/a.js" = ["/d/b.js"] := by decide

theorem queryImports_addImport_present_w :
    (RdfQuad.mk (RdfTerm.nn "/d/a.js") (erfNS "imports") (RdfTerm.nn "/d/b.js") ∈
      dDupBase) ∧
    queryImports dDup "/d/a.js" = queryImports dDupBase "/d/a.js" :=
  ⟨by decide,
   queryImports_addImport_present { line := some 5, itype := some "import" }
     (by decide) "/d/a.js"⟩

/-- Claim C6 (counterexample): detect on the empty graph returns empty
deadFiles with reachabilityPercentage 0, refuting "equals 100 if and
only if deadFiles is empty". -/
theorem reachability_iff_fails_empty :
    (detect (∅ : Dataset)).deadFiles = [] ∧
    (detect (∅ : Dataset)).stats.reachabilityPercentage ≠ 100 := by decide

/-- Claim C6 (amended): reachabilityPercentage equals the half-up
rounding of 100·reachable/total (0 when total is 0, by convention of
natural division), lies in [0,100], and equals 100 whenever deadFiles is
empty AND there is at least one file; the converse of the original iff
fails (a zero-file result has empty deadFiles with percentage 0). -/
theorem detect_reachabilityPercentage_props (d : Dataset) :
    (detect d).stats.reachabilityPercentage =
      jsRound100 (detect d).stats.reachableFiles (detect d).stats.totalFiles ∧
    (detect d).stats.reachabilityPercentage ≤ 100 ∧
    ((detect d).stats.totalFiles = 0 → (detect d).stats.reachabilityPercentage = 0) ∧
    ((detect d).deadFiles = [] → 0 < (detect d).stats.totalFiles →
      (detect d).stats.reachabilityPercentage = 100) := by
  unfold detect
  dsimp only
  split
  · exact ⟨by decide, by decide, fun _ => rfl, fun _ h0 => absurd h0 (by decide)⟩
  · dsimp only
    refine ⟨?_, ?_, ?_, ?_⟩
    · by_cases ht : (queryNodesByType d "file").length > 0
      · rw [if_pos ht]
      · rw [if_neg ht]
        have h0 : (queryNodesByType d "file").length = 0 := by omega
        rw [h0]
        simp [jsRound100]
    · by_cases ht : (queryNodesByType d "file").length > 0
      · rw [if_pos ht]
        apply jsRound100_le
        rw [List.length_map]
        exact List.length_filter_le _ _
      · rw [if_neg ht]
        omega
    · intro h0
      rw [if_neg (by omega)]
    · intro hdead ht
      have hnil : (queryNodesByType d "file").filter
          (fun f => !((List.foldl
            (fun st e => traverseFromNode d (Dataset.size d + 2) st e) ([], [])
            (queryEntryPoints d)).2.contains f)) = [] := by
        exact List.map_eq_nil_iff.mp hdead
      have hself := filter_self_of_filter_not_nil hnil
      rw [if_pos ht, List.length_map, hself]
      exact jsRound100_self _ ht

theorem detect_reachabilityPercentage_props_w :
    (detect dAllReachable).stats.reachabilityPercentage = 100 :=
  (detect_reachabilityPercentage_props dAllReachable).2.2.2 (by decide) (by decide)

/-- Claim C7 (counterexample): in Scenario A the dead file's reason
string is capitalized ("Not reachable from any entry point"), so the
claimed reason 'not reachable from any entry point' does not hold. -/
theorem scenarioA_reason_mismatch :
    (detect dScenarioA).deadFiles.map (fun e => e.reason) ≠
      ["not reachable from any entry point"] := by decide

/-- Claim C7 (amended): Scenario A — files a, b, c, a imports b, entry
points exactly {a} — yields reachableFiles {a, b}, deadFiles {c} with
reason "Not reachable from any entry point", and reachability 67. -/
theorem scenarioA_detect_results :
    (detect dScenarioA).reachableFiles.map (fun e => e.path) = ["/s/a.js", "/s/b.js"] ∧
    (detect dScenarioA).deadFiles.map (fun e => e.path) = ["/s/c.js"] ∧
    (detect dScenarioA).deadFiles.map (fun e => e.reason) =
      ["Not reachable from any entry point"] ∧
    (detect dScenarioA).stats.reachabilityPercentage = 67 := by decide

/-- Claim C8: when both grammar modes fail, parseFile catches the
re-thrown original error and returns — it never raises, being a total
function into FileParseResult — a result with empty imports, exports and
calls lists and the first (module-mode) failure's message. -/
theorem parseFile_both_modes_fail (e1 e2 filePath : String) :
    parseFile (.error e1) (.error e2) filePath =
      { imports := [], exports := [], calls := [], functions := none, filePath := none,
        error := some e1 } := rfl

/-- Claim C9 (counterexample): a file whose only statement is a
dynamic import with a non-literal specifier produces NO record at all —
in particular no record with a null specifier flagged dynamic. -/
theorem importExpression_nonliteral_unrecorded :
    (extractDependencies astNonLiteralDyn "/p/f.js").imports = [] := rfl

/-- Claim C9 (amended): a literal-specifier dynamic import is recorded
(flagged dynamic) and resolved; a NON-literal dynamic import expression
produces no record at all; a variable-argument require call is recorded
with a null specifier, flagged dynamic, and left unresolved. -/
theorem import_records_literal_vs_dynamic (v y p : String) (line : Nat) (hv : v ≠ "") :
    (extractDependencies [.importExpr (.stringLit v) line] p).imports =
      [{ itype := "dynamic-import", source := some v, specifiers := none, dynamic := true,
         line := line, resolvedPath := some (resolveImportPath v p) }] ∧
    (extractDependencies [.importExpr (.ident y) line] p).imports = [] ∧
    (extractDependencies [.callExpr (.ident "require") [.ident y] line] p).imports =
      [{ itype := "require", source := none, specifiers := none, dynamic := true,
         line := line, resolvedPath := none }] := by
  refine ⟨?_, rfl, rfl⟩
  simp [extractDependencies, walkNode, walkList, visitFacts, RawFacts.append, hv]

theorem import_records_literal_vs_dynamic_w :
    ("./m.js" : String) ≠ "" ∧
    ((extractDependencies [.importExpr (.stringLit "./m.js") 1] "/q/f.js").imports =
      [{ itype := "dynamic-import", source := some "./m.js", specifiers := none,
         dynamic := true, line := 1,
         resolvedPath := some (resolveImportPath "./m.js" "/q/f.js") }] ∧
     (extractDependencies [.importExpr (.ident "x") 1] "/q/f.js").imports = [] ∧
     (extractDependencies [.callExpr (.ident "require") [.ident "x"] 1] "/q/f.js").imports =
      [{ itype := "require", source := none, specifiers := none, dynamic := true,
         line := 1, resolvedPath := none }]) :=
  ⟨by decide, import_records_literal_vs_dynamic "./m.js" "x" "/q/f.js" 1 (by decide)⟩

/-- Claim C10: parseFile's failure result has no functions field at all
(it is undefined/none — not an empty list), and this happens exactly when
both grammar modes fail; every successful parse carries the extracted
functions array. -/
theorem parseFile_functions_presence :
    (∀ (mp sp : Except String (List JsNode)) (p : String),
      (parseFile mp sp p).functions = none ↔
        (∃ e1, mp = .error e1) ∧ (∃ e2, sp = .error e2)) ∧
    (∀ (ast : List JsNode) (sp : Except String (List JsNode)) (p : String),
      (parseFile (.ok ast) sp p).functions = some (extractDependencies ast p).functions) := by
  constructor
  · intro mp sp p
    cases mp <;> cases sp <;> simp [parseFile, parseSource]
  · intro ast sp p
    rfl
